import Mathlib

/-!
Shallow embedding of the email-classification engine of this repository
(source: the route-handler module containing `classifyEmail`,
`generateDemoEmails` and `POST`).

Strings are modelled as Lean `String`; all scanning is performed over
`String.data` (`List Char`).  JavaScript's `toLowerCase` is modelled by
per-character ASCII lowercasing (the engine's keywords, URL scheme and
sender patterns are all ASCII, and the spec declares non-ASCII case
folding not load-bearing).  The regular expression
`/https?:\/\/[^\s]+unsubscribe[^\s]*/i` used by the code is embedded as
an explicit left-to-right scanner with the regex's leftmost-match,
greedy semantics.  JavaScript truthiness of an optional string
(`undefined` and `""` are falsy) is modelled by `jsTruthy`.
-/

/-- JavaScript's `\s` character class (whitespace as matched by the regex
`[^\s]` in the source): ASCII whitespace, NBSP, the Unicode space
separators, line/paragraph separators and the BOM. -/
def jsWhitespace (c : Char) : Bool :=
  c == ' ' || c == '\t' || c == '\n' || c == '\x0b' || c == '\x0c' || c == '\r' ||
  c == '\u00A0' || c == '\u1680' ||
  (decide ('\u2000' ≤ c) && decide (c ≤ '\u200A')) ||
  c == '\u2028' || c == '\u2029' || c == '\u202F' || c == '\u205F' ||
  c == '\u3000' || c == '\uFEFF'

/-- ASCII lowercasing of a character list: the model of JavaScript's
`String.prototype.toLowerCase` used on `subject`, `from` and `body`. -/
def toLowerL (l : List Char) : List Char :=
  l.map Char.toLower

/-- Whether `pat` occurs at the very start of `l` (exact characters):
the worker for `includesL`. -/
def beginsWith : List Char → List Char → Bool
  | [], _ => true
  | _ :: _, [] => false
  | p :: ps, c :: cs => p == c && beginsWith ps cs

/-- JavaScript `hay.includes(pat)`: `pat` occurs contiguously in `hay`. -/
def includesL (hay pat : List Char) : Bool :=
  match hay with
  | [] => pat.isEmpty
  | _ :: t => beginsWith pat hay || includesL t pat

/-- Case-insensitive character equality, as used by the `/i` regex flag. -/
def ciEq (a b : Char) : Bool :=
  a.toLower == b.toLower

/-- Case-insensitive `beginsWith`. -/
def ciBeginsWith : List Char → List Char → Bool
  | [], _ => true
  | _ :: _, [] => false
  | p :: ps, c :: cs => ciEq p c && ciBeginsWith ps cs

/-- Case-insensitive contiguous containment. -/
def ciContains (pat : List Char) : List Char → Bool
  | [] => pat.isEmpty
  | c :: cs => ciBeginsWith pat (c :: cs) || ciContains pat cs

/-- Continuation of the regex after a scheme of `k` characters: the
`[^\s]+unsubscribe[^\s]*` part.  It succeeds exactly when the maximal
non-whitespace run following the scheme contains `unsubscribe` at
offset at least 1 (the `[^\s]+` is non-empty); greediness makes the
match extend to the end of that run, so the match is the scheme
followed by the whole run. -/
def matchTail (k : Nat) (l : List Char) : Option (List Char) :=
  if ciContains ("unsubscribe".data) (((l.drop k).takeWhile (fun c => !jsWhitespace c)).drop 1)
  then some (l.take k ++ (l.drop k).takeWhile (fun c => !jsWhitespace c))
  else none

/-- Attempt of the regex `https?:\/\/[^\s]+unsubscribe[^\s]*` (flag `i`)
anchored at the start of `l`: the scheme is `https://` (8 characters,
preferred by the greedy `s?`) or `http://` (7 characters), followed by
`matchTail`. -/
def matchAt (l : List Char) : Option (List Char) :=
  if ciBeginsWith ("https://".data) l then matchTail 8 l
  else if ciBeginsWith ("http://".data) l then matchTail 7 l
  else none

/-- The source's `body.match(/https?:\/\/[^\s]+unsubscribe[^\s]*/i)`:
the leftmost match of the pattern in `l`, or `none`. -/
def firstUnsubMatch : List Char → Option (List Char)
  | [] => none
  | c :: rest =>
    match matchAt (c :: rest) with
    | some m => some m
    | none => firstUnsubMatch rest

/-- JavaScript truthiness of an optional string: `undefined` and the
empty string are falsy, every other string is truthy. -/
def jsTruthy : Option String → Bool
  | none => false
  | some s =>
    match s.data with
    | [] => false
    | _ :: _ => true

/-- The source's `EmailData` interface.  `headers` is typed `any` in the
source and never read by the engine; it is modelled as an association
list. -/
structure EmailData where
  id : String
  «from» : String
  subject : String
  date : String
  body : String
  headers : List (String × String)

/-- The source's `EmailResult` interface.  `classification` is the
string union `'marketing' | 'important'`, modelled as a `String`. -/
structure EmailResult where
  id : String
  «from» : String
  subject : String
  date : String
  classification : String
  action : String
  reason : String
  unsubscribeLink : Option String

/-- The `marketingKeywords` table of `classifyEmail` (21 entries). -/
def marketingKeywords : List String :=
  ["unsubscribe", "promotional", "sale", "discount", "offer", "deal",
   "newsletter", "marketing", "advertisement", "promo", "limited time",
   "buy now", "shop now", "exclusive", "free shipping", "save now",
   "special offer", "subscribe", "notification", "update", "digest"]

/-- The `importantKeywords` table of `classifyEmail` (21 entries). -/
def importantKeywords : List String :=
  ["invoice", "receipt", "payment", "account", "security", "alert",
   "verification", "confirm", "reset password", "bank", "statement",
   "bill", "transaction", "urgent", "action required", "contract",
   "meeting", "appointment", "deadline", "legal", "tax"]

/-- The `forEach` scoring loop of `classifyEmail`: starting from 0, add
1 for each table entry contained in the (lowercased) subject or body. -/
def keywordScore (kws : List String) (subject body : List Char) : Nat :=
  kws.foldl (fun score kw => if includesL subject kw.data || includesL body kw.data then score + 1 else score) 0

/-- The sender test `from.includes('noreply') || from.includes('no-reply')
|| from.includes('marketing')` of `classifyEmail`. -/
def marketingSenderHit (fromL : List Char) : Bool :=
  includesL fromL ("noreply".data) || includesL fromL ("no-reply".data) || includesL fromL ("marketing".data)

/-- The sender test `from.includes('admin') || from.includes('support')
|| from.includes('billing')` of `classifyEmail`. -/
def importantSenderHit (fromL : List Char) : Bool :=
  includesL fromL ("admin".data) || includesL fromL ("support".data) || includesL fromL ("billing".data)

/-- The `unsubscribeLink` local of `classifyEmail`: the regex match over
the lowercased body, `undefined` when there is none. -/
def unsubLink (email : EmailData) : Option String :=
  (firstUnsubMatch (toLowerL email.body.data)).map (fun m => String.mk m)

/-- The final value of the `marketingScore` local of `classifyEmail`:
keyword hits, plus 2 on a sender hit, plus 3 when `unsubscribeLink` is
truthy. -/
def marketingScore (email : EmailData) : Nat :=
  keywordScore marketingKeywords (toLowerL email.subject.data) (toLowerL email.body.data)
    + (if marketingSenderHit (toLowerL email.«from».data) then 2 else 0)
    + (if jsTruthy (unsubLink email) then 3 else 0)

/-- The final value of the `importantScore` local of `classifyEmail`:
keyword hits plus 2 on a sender hit (no link bonus). -/
def importantScore (email : EmailData) : Nat :=
  keywordScore importantKeywords (toLowerL email.subject.data) (toLowerL email.body.data)
    + (if importantSenderHit (toLowerL email.«from».data) then 2 else 0)

/-- The source's `classifyEmail`: scores the email, applies the strict
`marketingScore > importantScore` decision and builds the result. -/
def classifyEmail (email : EmailData) : EmailResult :=
  let unsubscribeLink := unsubLink email
  let mScore := marketingScore email
  let iScore := importantScore email
  let isMarketing : Bool := decide (mScore > iScore)
  { id := email.id
    «from» := email.«from»
    subject := email.subject
    date := email.date
    classification := if isMarketing then "marketing" else "important"
    action := if isMarketing
      then (if jsTruthy unsubscribeLink then "Unsubscribe available" else "Mark as spam or delete")
      else "Keep and respond professionally if needed"
    reason := if isMarketing
      then "Marketing email detected (score: " ++ toString mScore ++ "). Contains promotional content."
      else "Important email detected (score: " ++ toString iScore ++ "). Requires attention."
    unsubscribeLink := unsubscribeLink }

/-- The source's `EmailConfig` interface (the request body).  Only
`maxEmails` and `autoUnsubscribe` are read by the handler; `maxEmails`
is `Option String` because the JSON field may be absent (JavaScript
`parseInt(undefined)` is `NaN`, the same path as a non-numeric
string). -/
structure EmailConfig where
  provider : String
  email : String
  password : String
  imapHost : String
  imapPort : String
  maxEmails : Option String
  autoUnsubscribe : Bool

/-- The per-batch `stats` object computed by `POST`. -/
structure BatchStats where
  total : Nat
  marketing : Nat
  important : Nat
  unsubscribed : Nat

/-- The JSON payload `{ results, stats }` returned by `POST`. -/
structure AnalyzeResponse where
  results : List EmailResult
  stats : BatchStats

/-- The predicate `r.classification === 'marketing' && r.unsubscribeLink`
used (twice, identically) by `POST` for the unsubscribed count and for
the action rewrite; the second conjunct is JavaScript truthiness. -/
def markPred (r : EmailResult) : Bool :=
  r.classification == "marketing" && jsTruthy r.unsubscribeLink

/-- The `forEach` body of the auto-unsubscribe simulation: overwrite
`action` on the results selected by `markPred`. -/
def rewriteResult (r : EmailResult) : EmailResult :=
  if markPred r then { r with action := "Successfully unsubscribed" } else r

/-- The part of `POST` after the demo emails are generated: classify
each email, compute the stats (on the pre-rewrite results, as the
source does), and apply the auto-unsubscribe rewrite when requested. -/
def classifyBatch (emails : List EmailData) (autoUnsubscribe : Bool) : AnalyzeResponse :=
  let results := emails.map classifyEmail
  { results := if autoUnsubscribe then results.map rewriteResult else results
    stats :=
      { total := results.length
        marketing := (results.filter (fun r => r.classification == "marketing")).length
        important := (results.filter (fun r => r.classification == "important")).length
        unsubscribed := if autoUnsubscribe then (results.filter (fun r => markPred r)).length else 0 } }

/-- Decimal digit value, for `parseInt` in radix 10. -/
def decVal (c : Char) : Option Nat :=
  if 48 ≤ c.toNat ∧ c.toNat ≤ 57 then some (c.toNat - 48) else none

/-- Hexadecimal digit value, for `parseInt` after a `0x` prefix. -/
def hexVal (c : Char) : Option Nat :=
  if 48 ≤ c.toNat ∧ c.toNat ≤ 57 then some (c.toNat - 48)
  else if 97 ≤ c.toNat ∧ c.toNat ≤ 102 then some (c.toNat - 87)
  else if 65 ≤ c.toNat ∧ c.toNat ≤ 70 then some (c.toNat - 55)
  else none

/-- Longest digit prefix in the given radix; `none` when no digit was
seen at all (JavaScript `parseInt` returns `NaN` then). -/
def parseRadix (valOf : Char → Option Nat) (radix : Nat) (acc : Nat) (sawDigit : Bool) : List Char → Option Nat
  | [] => if sawDigit then some acc else none
  | c :: t =>
    match valOf c with
    | some d => parseRadix valOf radix (acc * radix + d) true t
    | none => if sawDigit then some acc else none

/-- The magnitude part of `parseInt`: an optional `0x`/`0X` prefix
selects radix 16, otherwise radix 10. -/
def parseUnsigned : List Char → Option Nat
  | '0' :: 'x' :: r => parseRadix hexVal 16 0 false r
  | '0' :: 'X' :: r => parseRadix hexVal 16 0 false r
  | r => parseRadix decVal 10 0 false r

/-- JavaScript `parseInt(s)` (no radix argument): skip leading
whitespace, read an optional sign, then the longest digit prefix;
`none` models `NaN`. -/
def jsParseInt (s : String) : Option Int :=
  match s.data.dropWhile (fun c => jsWhitespace c) with
  | '-' :: r => (parseUnsigned r).map (fun n => -(n : Int))
  | '+' :: r => (parseUnsigned r).map (fun n => (n : Int))
  | r => (parseUnsigned r).map (fun n => (n : Int))

/-- The handler's `Math.min(parseInt(config.maxEmails) || 50, 100)`:
`NaN` and `0` are falsy, so both fall back to 50 before the clamp. -/
def computeMaxEmails (maxEmails : Option String) : Int :=
  let parsed := match maxEmails with
    | none => none
    | some s => jsParseInt s
  let v : Int := match parsed with
    | none => 50
    | some n => if n = 0 then 50 else n
  min v 100

/-- The six hard-coded demo emails of `generateDemoEmails`.  Their
`date` fields are computed from `Date.now()` in the source and are
always overwritten by the generation loop, so they are left empty
here. -/
def demoTemplates : List EmailData :=
  [{ id := "1", «from» := "newsletter@techcompany.com",
     subject := "🎉 Exclusive 50% OFF Sale - Limited Time!", date := "",
     body := "Hi there! Don't miss our biggest sale of the year. Get 50% off all products. Shop now! Click here to unsubscribe: https://techcompany.com/unsubscribe?id=123",
     headers := [] },
   { id := "2", «from» := "billing@yourbank.com",
     subject := "Your Monthly Statement is Ready", date := "",
     body := "Your bank statement for this month is now available. Please review your transactions. Contact us if you have any questions.",
     headers := [] },
   { id := "3", «from» := "noreply@deals.com",
     subject := "Today Only: Free Shipping on Everything!", date := "",
     body := "Amazing deal alert! Free shipping on all orders today only. Don't wait! Unsubscribe here: https://deals.com/unsubscribe",
     headers := [] },
   { id := "4", «from» := "support@company.com",
     subject := "Security Alert: New Login Detected", date := "",
     body := "We detected a new login to your account from a new device. If this wasn't you, please reset your password immediately.",
     headers := [] },
   { id := "5", «from» := "marketing@fashion.com",
     subject := "New Arrivals You'll Love ❤️", date := "",
     body := "Check out our latest collection! Spring fashion is here. Browse now and enjoy exclusive discounts. Unsubscribe: https://fashion.com/unsub",
     headers := [] },
   { id := "6", «from» := "admin@workspace.com",
     subject := "Action Required: Verify Your Account", date := "",
     body := "Your account verification is pending. Please verify your email address within 24 hours to maintain access to your account.",
     headers := [] }]

/-- Fallback record for an out-of-range template index (never reached:
the index is always taken modulo the list length). -/
def emptyEmail : EmailData :=
  { id := "", «from» := "", subject := "", date := "", body := "", headers := [] }

/-- The source's `generateDemoEmails`: repeat the six templates up to
`count`, renumbering ids from 1 and stamping fresh dates.  The `for`
loop runs `max count 0` times for an integer `count`; the date strings
come from `Date.now()`, which the embedding abstracts as the `dateOf`
argument. -/
def generateDemoEmails (dateOf : Nat → String) (count : Int) : List EmailData :=
  (List.range count.toNat).map (fun i =>
    let template := demoTemplates.getD (i % demoTemplates.length) emptyEmail
    { template with id := toString (i + 1), date := dateOf i })

/-- The source's `POST` handler on a parsed request body: clamp the
batch size, generate the demo emails, classify and aggregate. -/
def POST (config : EmailConfig) (dateOf : Nat → String) : AnalyzeResponse :=
  classifyBatch (generateDemoEmails dateOf (computeMaxEmails config.maxEmails)) config.autoUnsubscribe

/-! Concrete email records and request configurations used to evaluate
the definitions at specific inputs. -/

/-- An email with empty subject and body and a neutral sender: both
scores are 0. -/
def exEmpty : EmailData :=
  { id := "0", «from» := "x@example.com", subject := "", date := "", body := "", headers := [] }

/-- An email whose body carries an unsubscribe URL with upper-case
letters. -/
def exMixedCase : EmailData :=
  { id := "c2", «from» := "a@b.c", subject := "", date := "",
    body := "see HTTP://X.cOm/Unsubscribe now", headers := [] }

/-- An email whose body carries the spec's round-trip example link,
already fully lower-case. -/
def exRound : EmailData :=
  { id := "r", «from» := "a@b.c", subject := "hi", date := "",
    body := "Please stop: https://example.com/unsubscribe?x=1 thanks", headers := [] }

/-- A marketing email with an unsubscribe link: subject keyword,
`noreply` sender and body link. -/
def exPromo : EmailData :=
  { id := "m", «from» := "noreply@shop.example", subject := "Big sale", date := "",
    body := "Visit http://shop.example/unsubscribe today", headers := [] }

/-- An email containing the word `unsubscribe` as plain text only, with
no URL. -/
def exPlainUnsub : EmailData :=
  { id := "d", «from» := "friend@example.com", subject := "", date := "",
    body := "please unsubscribe me from this list", headers := [] }

/-- An email that is classified important although its body carries an
unsubscribe link (seven important keywords against the link bonus). -/
def exImpLink : EmailData :=
  { id := "7", «from» := "x@y.z", subject := "", date := "",
    body := "invoice payment urgent tax bill deadline meeting http://a.b/unsubscribe", headers := [] }

/-- A record with the same body as `exImpLink` but different id,
subject, sender, date and headers. -/
def exImpLink2 : EmailData :=
  { id := "7b", «from» := "other@y.z", subject := "hello", date := "x",
    body := "invoice payment urgent tax bill deadline meeting http://a.b/unsubscribe", headers := [("k", "v")] }

/-- First of two records agreeing on sender, subject and body. -/
def exHdr1 : EmailData :=
  { id := "a", «from» := "noreply@x", subject := "sale", date := "d1", body := "", headers := [] }

/-- Second of the pair: same sender, subject and body as `exHdr1`,
different id, date and headers. -/
def exHdr2 : EmailData :=
  { id := "b", «from» := "noreply@x", subject := "sale", date := "d2", body := "",
    headers := [("X-Spam", "yes")] }

/-- A request whose `maxEmails` parses to a negative number. -/
def cfgNeg : EmailConfig :=
  { provider := "", email := "", password := "", imapHost := "", imapPort := "",
    maxEmails := some "-3", autoUnsubscribe := false }

/-- A request with no `maxEmails` field. -/
def cfgAbsent : EmailConfig :=
  { provider := "", email := "", password := "", imapHost := "", imapPort := "",
    maxEmails := none, autoUnsubscribe := false }

/-- A trivial date oracle for evaluating `POST` on concrete requests. -/
def dateOfEmpty : Nat → String := fun _ => ""

/-! Helper lemmas about the link extractor, the scores and list
counting. -/

/-- A successful anchored tail match is a prefix of the scanned text:
it is the scheme characters followed by a `takeWhile` of the rest. -/
lemma matchTail_isPrefix {k : Nat} {l m : List Char} (h : matchTail k l = some m) : m <+: l := by
  unfold matchTail at h
  by_cases hc : ciContains ("unsubscribe".data) (((l.drop k).takeWhile (fun c => !jsWhitespace c)).drop 1) = true
  · rw [if_pos hc] at h
    obtain ⟨t, ht⟩ := List.takeWhile_prefix (l := l.drop k) (p := fun c => !jsWhitespace c)
    refine ⟨t, ?_⟩
    rw [← Option.some_inj.mp h, List.append_assoc, ht, List.take_append_drop]
  · rw [if_neg hc] at h; cases h

/-- A successful anchored tail match is non-empty when the scheme is. -/
lemma matchTail_ne_nil {k : Nat} {l m : List Char} (hk : k ≠ 0) (hl : l ≠ []) (h : matchTail k l = some m) : m ≠ [] := by
  unfold matchTail at h
  by_cases hc : ciContains ("unsubscribe".data) (((l.drop k).takeWhile (fun c => !jsWhitespace c)).drop 1) = true
  · rw [if_pos hc] at h
    cases l with
    | nil => exact absurd rfl hl
    | cons a t =>
      cases k with
      | zero => exact absurd rfl hk
      | succ j => rw [← Option.some_inj.mp h]; simp [List.take_cons]
  · rw [if_neg hc] at h; cases h

/-- A successful anchored match is a prefix of the scanned text. -/
lemma matchAt_isPrefix {l m : List Char} (h : matchAt l = some m) : m <+: l := by
  unfold matchAt at h
  by_cases h8 : ciBeginsWith ("https://".data) l = true
  · rw [if_pos h8] at h; exact matchTail_isPrefix h
  · rw [if_neg h8] at h
    by_cases h7 : ciBeginsWith ("http://".data) l = true
    · rw [if_pos h7] at h; exact matchTail_isPrefix h
    · rw [if_neg h7] at h; cases h

/-- A successful anchored match is non-empty. -/
lemma matchAt_ne_nil {l m : List Char} (h : matchAt l = some m) : m ≠ [] := by
  unfold matchAt at h
  by_cases h8 : ciBeginsWith ("https://".data) l = true
  · rw [if_pos h8] at h
    refine matchTail_ne_nil (by omega) ?_ h
    rintro rfl; exact absurd h8 (by decide)
  · rw [if_neg h8] at h
    by_cases h7 : ciBeginsWith ("http://".data) l = true
    · rw [if_pos h7] at h
      refine matchTail_ne_nil (by omega) ?_ h
      rintro rfl; exact absurd h7 (by decide)
    · rw [if_neg h7] at h; cases h

/-- The extractor's output is a contiguous substring of its input. -/
lemma firstUnsubMatch_isInfix {l m : List Char} (h : firstUnsubMatch l = some m) : m <:+: l := by
  induction l with
  | nil => cases h
  | cons c rest ih =>
    unfold firstUnsubMatch at h
    cases hma : matchAt (c :: rest) with
    | some m2 =>
      rw [hma] at h
      exact (Option.some_inj.mp h ▸ matchAt_isPrefix hma).isInfix
    | none =>
      rw [hma] at h
      obtain ⟨s, t, hst⟩ := ih h
      exact ⟨c :: s, t, by rw [← hst]; rfl⟩

/-- The extractor never returns an empty match. -/
lemma firstUnsubMatch_ne_nil {l m : List Char} (h : firstUnsubMatch l = some m) : m ≠ [] := by
  induction l with
  | nil => cases h
  | cons c rest ih =>
    unfold firstUnsubMatch at h
    cases hma : matchAt (c :: rest) with
    | some m2 => rw [hma] at h; exact Option.some_inj.mp h ▸ matchAt_ne_nil hma
    | none => rw [hma] at h; exact ih h

/-- Because every extracted link is a non-empty string, JavaScript
truthiness of `unsubscribeLink` coincides with its presence. -/
lemma jsTruthy_unsubLink (e : EmailData) : jsTruthy (unsubLink e) = (firstUnsubMatch (toLowerL e.body.data)).isSome := by
  unfold unsubLink
  cases hm : firstUnsubMatch (toLowerL e.body.data) with
  | none => rfl
  | some m =>
    cases hm2 : m with
    | nil => exact absurd hm2 (firstUnsubMatch_ne_nil hm)
    | cons a t => simp [jsTruthy, hm2]

/-- A fold that adds 1 on a predicate counts the elements satisfying
the predicate. -/
lemma foldl_count {α : Type} (p : α → Bool) (l : List α) (n : Nat) :
    l.foldl (fun sc x => if p x then sc + 1 else sc) n = n + (l.filter p).length := by
  induction l generalizing n with
  | nil => simp
  | cons a t ih =>
    cases hp : p a <;> simp [List.filter_cons, hp, ih]
    all_goals omega

/-- The keyword loop scores one point per table entry found in subject
or body. -/
lemma keywordScore_eq (kws : List String) (s b : List Char) :
    keywordScore kws s b = (kws.filter (fun kw => includesL s kw.data || includesL b kw.data)).length := by
  unfold keywordScore
  rw [foldl_count (fun kw => includesL s kw.data || includesL b kw.data) kws 0]; omega

/-- The produced classification is `marketing` exactly when the
marketing score strictly exceeds the important score. -/
lemma classification_iff (e : EmailData) :
    ((classifyEmail e).classification = "marketing") ↔ importantScore e < marketingScore e := by
  by_cases h : importantScore e < marketingScore e
  · simp [classifyEmail, h]
  · simp [classifyEmail, h]

/-- Without a strict marketing majority the classification is
`important`. -/
lemma classification_of_not_gt (e : EmailData) (h : ¬ importantScore e < marketingScore e) :
    (classifyEmail e).classification = "important" := by
  simp [classifyEmail, h]

/-- The classification is one of the two expected strings. -/
lemma classification_cases (e : EmailData) :
    (classifyEmail e).classification = "marketing" ∨ (classifyEmail e).classification = "important" := by
  by_cases h : importantScore e < marketingScore e
  · exact Or.inl ((classification_iff e).mpr h)
  · exact Or.inr (classification_of_not_gt e h)

/-- Boolean form of the two-valuedness of the classification. -/
lemma classification_beq_not (e : EmailData) :
    ((classifyEmail e).classification == "important") = !((classifyEmail e).classification == "marketing") := by
  rcases classification_cases e with h | h <;> rw [h] <;> decide

/-- The classifier produces one of exactly three action strings. -/
lemma action_cases (e : EmailData) :
    (classifyEmail e).action = "Unsubscribe available" ∨
    (classifyEmail e).action = "Mark as spam or delete" ∨
    (classifyEmail e).action = "Keep and respond professionally if needed" := by
  by_cases h : importantScore e < marketingScore e
  · by_cases ht : jsTruthy (unsubLink e) = true
    · exact Or.inl (by simp [classifyEmail, h, ht])
    · exact Or.inr (Or.inl (by simp [classifyEmail, h, ht]))
  · exact Or.inr (Or.inr (by simp [classifyEmail, h]))

/-- The classifier never emits the rewrite marker itself. -/
lemma action_ne_marker (e : EmailData) : (classifyEmail e).action ≠ "Successfully unsubscribed" := by
  rcases action_cases e with h | h | h <;> rw [h] <;> decide

/-- Two filters by complementary predicates partition a list. -/
lemma length_filter_partition {α : Type} (l : List α) (p q : α → Bool)
    (h : ∀ x ∈ l, q x = !p x) :
    (l.filter p).length + (l.filter q).length = l.length := by
  induction l with
  | nil => simp
  | cons a t ih =>
    have ha := h a (by simp)
    have ht : ∀ x ∈ t, q x = !p x := fun x hx => h x (by simp [hx])
    have ihh := ih ht
    cases hp : p a <;> rw [hp] at ha <;> simp [List.filter_cons, hp, ha] <;> omega

/-- Filtering by a conjunction selects no more elements than filtering
by one conjunct. -/
lemma length_filter_and_le {α : Type} (l : List α) (p q : α → Bool) :
    (l.filter (fun x => p x && q x)).length ≤ (l.filter p).length := by
  induction l with
  | nil => simp
  | cons a t ih =>
    cases hp : p a <;> cases hq : q a <;> simp [List.filter_cons, hp, hq] <;> omega

/-- Exactness of the rewrite: over results that never carry the marker
beforehand, the rewritten results carrying the marker are exactly the
results selected by the rewrite predicate. -/
lemma count_rewrite (l : List EmailResult) (h : ∀ r ∈ l, r.action ≠ "Successfully unsubscribed") :
    ((l.map rewriteResult).filter (fun r => r.action == "Successfully unsubscribed")).length
      = (l.filter (fun r => markPred r)).length := by
  induction l with
  | nil => simp
  | cons a t ih =>
    have ha := h a (by simp)
    have ht : ∀ r ∈ t, r.action ≠ "Successfully unsubscribed" := fun r hr => h r (by simp [hr])
    cases hm : markPred a
    · have hr : rewriteResult a = a := by simp [rewriteResult, hm]
      have hb : (a.action == "Successfully unsubscribed") = false := by
        exact beq_eq_false_iff_ne.mpr ha
      simp [List.filter_cons, hr, hb, hm, ih ht]
    · have hr : rewriteResult a = { a with action := "Successfully unsubscribed" } := by
        simp [rewriteResult, hm]
      simp [List.filter_cons, hr, hm, ih ht]

/-! Claim theorems. -/

/-- C1: for every EmailRecord, `classifyEmail` labels it `marketing` if
and only if the computed marketing score strictly exceeds the computed
important score, and any tie (including 0 vs 0) yields `important`. -/
theorem classify_marketing_iff_score_gt (e : EmailData) :
    (((classifyEmail e).classification = "marketing") ↔ importantScore e < marketingScore e)
    ∧ (marketingScore e = importantScore e → (classifyEmail e).classification = "important") :=
  ⟨classification_iff e, fun h => classification_of_not_gt e (by omega)⟩

/-- C1 witness: the empty email scores 0 against 0 and the tie resolves
to `important`. -/
theorem classify_marketing_iff_score_gt_witness :
    marketingScore exEmpty = importantScore exEmpty
    ∧ (classifyEmail exEmpty).classification = "important" :=
  ⟨by decide, (classify_marketing_iff_score_gt exEmpty).2 (by decide)⟩

/-- C2 (amended): whenever the extractor matches in the lowercased
body, the result's `unsubscribeLink` is exactly that first match — a
contiguous substring of the lowercased body, i.e. the lowercase image
of the original text, not the original casing. -/
theorem unsubscribeLink_eq_first_match_lowercased (e : EmailData) (m : List Char)
    (h : firstUnsubMatch (toLowerL e.body.data) = some m) :
    (classifyEmail e).unsubscribeLink = some (String.mk m)
    ∧ m <:+: toLowerL e.body.data := by
  refine ⟨?_, firstUnsubMatch_isInfix h⟩
  show unsubLink e = some (String.mk m)
  unfold unsubLink
  rw [h]
  rfl

/-- C2 counterexample: on a body containing `HTTP://X.cOm/Unsubscribe`,
whose first grammar match in the original body is that upper-case
substring, the returned link is its lowercased image, so the original
casing is not preserved. -/
theorem unsubscribeLink_not_original_casing :
    (classifyEmail exMixedCase).unsubscribeLink = some "http://x.com/unsubscribe"
    ∧ firstUnsubMatch exMixedCase.body.data = some (("HTTP://X.cOm/Unsubscribe").data)
    ∧ ¬ ((classifyEmail exMixedCase).unsubscribeLink = some "HTTP://X.cOm/Unsubscribe") := by
  decide

/-- C2 witness: the spec's round-trip example, an all-lowercase link in
the body, is returned verbatim. -/
theorem unsubscribeLink_eq_first_match_lowercased_witness :
    (classifyEmail exRound).unsubscribeLink = some "https://example.com/unsubscribe?x=1" :=
  (unsubscribeLink_eq_first_match_lowercased exRound
    (("https://example.com/unsubscribe?x=1").data) (by decide)).1

/-- C3: for every batch and flag, `total` is the length of the result
list, `marketing + important = total`, and `unsubscribed ≤ marketing`. -/
theorem batch_stats_invariants (emails : List EmailData) (auto : Bool) :
    (classifyBatch emails auto).stats.total = (classifyBatch emails auto).results.length
    ∧ (classifyBatch emails auto).stats.marketing + (classifyBatch emails auto).stats.important
        = (classifyBatch emails auto).stats.total
    ∧ (classifyBatch emails auto).stats.unsubscribed ≤ (classifyBatch emails auto).stats.marketing := by
  refine ⟨?_, ?_, ?_⟩
  · cases auto <;> simp [classifyBatch]
  · have h : ∀ r ∈ emails.map classifyEmail,
        (r.classification == "important") = !(r.classification == "marketing") := by
      intro r hr
      obtain ⟨e, _, rfl⟩ := List.mem_map.mp hr
      exact classification_beq_not e
    have hp := length_filter_partition (emails.map classifyEmail)
      (fun r => r.classification == "marketing") (fun r => r.classification == "important") h
    simpa [classifyBatch] using hp
  · cases auto with
    | false => simp [classifyBatch]
    | true =>
      have hle := length_filter_and_le (emails.map classifyEmail)
        (fun r => r.classification == "marketing") (fun r => jsTruthy r.unsubscribeLink)
      simpa [classifyBatch, markPred] using hle

/-- C4: with `autoUnsubscribe` on, exactly the results that are
marketing with a present link get their action overwritten to the
success marker and `unsubscribed` counts exactly them; with the flag
off, nothing is rewritten and `unsubscribed` is 0. -/
theorem auto_unsubscribe_exact (emails : List EmailData) (auto : Bool) :
    (auto = true →
      (classifyBatch emails auto).results = (emails.map classifyEmail).map rewriteResult
      ∧ (classifyBatch emails auto).stats.unsubscribed
          = ((emails.map classifyEmail).filter (fun r => markPred r)).length
      ∧ ((classifyBatch emails auto).results.filter
            (fun r => r.action == "Successfully unsubscribed")).length
          = (classifyBatch emails auto).stats.unsubscribed)
    ∧ (auto = false →
      (classifyBatch emails auto).results = emails.map classifyEmail
      ∧ (classifyBatch emails auto).stats.unsubscribed = 0) := by
  constructor
  · rintro rfl
    refine ⟨by simp [classifyBatch], by simp [classifyBatch], ?_⟩
    have h : ∀ r ∈ emails.map classifyEmail, r.action ≠ "Successfully unsubscribed" := by
      intro r hr
      obtain ⟨e, _, rfl⟩ := List.mem_map.mp hr
      exact action_ne_marker e
    have hc := count_rewrite (emails.map classifyEmail) h
    simpa [classifyBatch] using hc
  · rintro rfl
    exact ⟨by simp [classifyBatch], by simp [classifyBatch]⟩

/-- C4 witness: a one-element marketing batch with a link is rewritten
and counted with the flag on, and untouched with the flag off. -/
theorem auto_unsubscribe_exact_witness :
    ((classifyBatch [exPromo] true).results.filter
        (fun r => r.action == "Successfully unsubscribed")).length
      = (classifyBatch [exPromo] true).stats.unsubscribed
    ∧ (classifyBatch [exPromo] true).stats.unsubscribed = 1
    ∧ (classifyBatch [exPromo] false).stats.unsubscribed = 0 :=
  ⟨((auto_unsubscribe_exact [exPromo] true).1 rfl).2.2, by decide,
   ((auto_unsubscribe_exact [exPromo] false).2 rfl).2⟩

/-- C5: each table entry contributes exactly +1 when contained in the
lowercased subject or body (once, even when in both), the sender test
contributes exactly +2 when any of its three substrings occurs (at
most +2 in total), and the only other contribution is the +3 link
bonus on the marketing side. -/
theorem score_decomposition (e : EmailData) :
    marketingScore e
      = (marketingKeywords.filter (fun kw =>
            includesL (toLowerL e.subject.data) kw.data
            || includesL (toLowerL e.body.data) kw.data)).length
        + (if marketingSenderHit (toLowerL e.«from».data) then 2 else 0)
        + (if (firstUnsubMatch (toLowerL e.body.data)).isSome then 3 else 0)
    ∧ importantScore e
      = (importantKeywords.filter (fun kw =>
            includesL (toLowerL e.subject.data) kw.data
            || includesL (toLowerL e.body.data) kw.data)).length
        + (if importantSenderHit (toLowerL e.«from».data) then 2 else 0) := by
  constructor
  · unfold marketingScore
    rw [keywordScore_eq, jsTruthy_unsubLink e]
  · unfold importantScore
    rw [keywordScore_eq]

/-- C6: a body containing `unsubscribe` as plain text with no matching
URL token yields no `unsubscribeLink` and no +3 bonus, while the
keyword count still includes the table entry `unsubscribe`. -/
theorem plain_unsubscribe_no_link (e : EmailData)
    (h1 : includesL (toLowerL e.body.data) (("unsubscribe").data) = true)
    (h2 : firstUnsubMatch (toLowerL e.body.data) = none) :
    (classifyEmail e).unsubscribeLink = none
    ∧ "unsubscribe" ∈ marketingKeywords.filter (fun kw =>
        includesL (toLowerL e.subject.data) kw.data
        || includesL (toLowerL e.body.data) kw.data)
    ∧ marketingScore e
      = (marketingKeywords.filter (fun kw =>
            includesL (toLowerL e.subject.data) kw.data
            || includesL (toLowerL e.body.data) kw.data)).length
        + (if marketingSenderHit (toLowerL e.«from».data) then 2 else 0) := by
  refine ⟨?_, ?_, ?_⟩
  · show unsubLink e = none
    unfold unsubLink
    rw [h2]
    rfl
  · refine List.mem_filter.mpr ⟨by decide, ?_⟩
    rw [h1, Bool.or_true]
  · unfold marketingScore
    rw [keywordScore_eq, jsTruthy_unsubLink e, h2]
    rfl

/-- C6 witness: a plain-text `unsubscribe` body has no link and a
positive marketing keyword count. -/
theorem plain_unsubscribe_no_link_witness :
    (classifyEmail exPlainUnsub).unsubscribeLink = none ∧ 1 ≤ marketingScore exPlainUnsub :=
  ⟨(plain_unsubscribe_no_link exPlainUnsub (by decide) (by decide)).1, by decide⟩

/-- C7: the result's `unsubscribeLink` is exactly the extractor's
output on the lowercased body — present if and only if a match was
found — and depends only on the body, not on the classification or any
other field. -/
theorem link_passthrough (e : EmailData) :
    (classifyEmail e).unsubscribeLink
      = (firstUnsubMatch (toLowerL e.body.data)).map (fun m => String.mk m)
    ∧ ((classifyEmail e).unsubscribeLink.isSome = (firstUnsubMatch (toLowerL e.body.data)).isSome)
    ∧ (∀ e2 : EmailData, e2.body = e.body →
        (classifyEmail e2).unsubscribeLink = (classifyEmail e).unsubscribeLink) := by
  refine ⟨rfl, ?_, ?_⟩
  · show (unsubLink e).isSome = _
    unfold unsubLink
    cases firstUnsubMatch (toLowerL e.body.data) <;> rfl
  · intro e2 hb
    show unsubLink e2 = unsubLink e
    unfold unsubLink
    rw [hb]

/-- C7 witness: an email classified `important` still carries the link
found in its body, and a record with the same body but different other
fields carries the same link. -/
theorem link_passthrough_witness :
    (classifyEmail exImpLink).classification = "important"
    ∧ (classifyEmail exImpLink).unsubscribeLink = some "http://a.b/unsubscribe"
    ∧ (classifyEmail exImpLink2).unsubscribeLink = (classifyEmail exImpLink).unsubscribeLink :=
  ⟨by decide, by decide, (link_passthrough exImpLink).2.2 exImpLink2 rfl⟩

/-- C8: `classifyEmail` is a total function and its classification is
one of exactly the two strings `marketing` and `important`. -/
theorem classification_total (e : EmailData) :
    (classifyEmail e).classification = "marketing"
    ∨ (classifyEmail e).classification = "important" :=
  classification_cases e

/-- C9 (amended): the number of emails processed is the batch-size
bound clamped below at 0 (so it equals the bound whenever the bound is
nonnegative); the bound never exceeds 100 and defaults to 50 when
`maxEmails` is absent or non-numeric. -/
theorem post_batch_size (config : EmailConfig) (dateOf : Nat → String) :
    (POST config dateOf).results.length = (computeMaxEmails config.maxEmails).toNat
    ∧ computeMaxEmails config.maxEmails ≤ 100
    ∧ (config.maxEmails = none → computeMaxEmails config.maxEmails = 50)
    ∧ (∀ s, config.maxEmails = some s → jsParseInt s = none
        → computeMaxEmails config.maxEmails = 50) := by
  refine ⟨?_, ?_, ?_, ?_⟩
  · cases hauto : config.autoUnsubscribe <;>
      simp [POST, classifyBatch, generateDemoEmails, hauto]
  · exact min_le_right _ _
  · intro h
    rw [h]
    rfl
  · intro s hs hp
    rw [hs]
    simp [computeMaxEmails, hp]

/-- C9 counterexample: `maxEmails = "-3"` parses to the bound −3, yet
the handler processes 0 emails, so the number processed is not the
computed bound. -/
theorem post_batch_size_counterexample :
    computeMaxEmails cfgNeg.maxEmails = -3
    ∧ (POST cfgNeg dateOfEmpty).results.length = 0
    ∧ ¬ (((POST cfgNeg dateOfEmpty).results.length : Int) = computeMaxEmails cfgNeg.maxEmails) := by
  decide

/-- C9 witness: with `maxEmails` absent the bound defaults to 50 and
exactly 50 emails are processed. -/
theorem post_batch_size_witness :
    (POST cfgAbsent dateOfEmpty).results.length = 50
    ∧ computeMaxEmails cfgAbsent.maxEmails = 50 := by
  have h := post_batch_size cfgAbsent dateOfEmpty
  have h50 : computeMaxEmails cfgAbsent.maxEmails = 50 := h.2.2.1 rfl
  exact ⟨by rw [h.1, h50]; rfl, h50⟩

/-- C10: `classifyEmail` never reads `headers`: two records agreeing on
sender, subject and body produce identical classification, action,
reason and link, and the identifying fields are copied verbatim. -/
theorem headers_noninterference (e1 e2 : EmailData)
    (hf : e1.«from» = e2.«from») (hs : e1.subject = e2.subject) (hb : e1.body = e2.body) :
    (classifyEmail e1).classification = (classifyEmail e2).classification
    ∧ (classifyEmail e1).action = (classifyEmail e2).action
    ∧ (classifyEmail e1).reason = (classifyEmail e2).reason
    ∧ (classifyEmail e1).unsubscribeLink = (classifyEmail e2).unsubscribeLink
    ∧ (classifyEmail e1).id = e1.id ∧ (classifyEmail e1).«from» = e1.«from»
    ∧ (classifyEmail e1).subject = e1.subject ∧ (classifyEmail e1).date = e1.date := by
  have hu : unsubLink e1 = unsubLink e2 := by
    unfold unsubLink
    rw [hb]
  have hm : marketingScore e1 = marketingScore e2 := by
    unfold marketingScore
    rw [hf, hs, hb, hu]
  have hi : importantScore e1 = importantScore e2 := by
    unfold importantScore
    rw [hf, hs, hb]
  refine ⟨?_, ?_, ?_, ?_, rfl, rfl, rfl, rfl⟩ <;> simp [classifyEmail, hm, hi, hu]

/-- C10 witness: two records differing only in id, date and headers are
classified identically. -/
theorem headers_noninterference_witness :
    (classifyEmail exHdr1).classification = (classifyEmail exHdr2).classification
    ∧ ¬ (exHdr1.headers = exHdr2.headers) ∧ ¬ (exHdr1.id = exHdr2.id) :=
  ⟨(headers_noninterference exHdr1 exHdr2 rfl rfl rfl).1, by decide, by decide⟩
